import Mathlib

/-!
# Spatial Visualization & Habitability Engine — verification

Shallow embedding of the exoplanet-hub core: the habitable-zone physics
model (`useExoplanets.ts`), the coordinate transform used to enrich
catalog rows, the 2D-projector camera controller (`StarMap3D` canvas
variant), and the entity-construction guards of the scene-graph renderer
(`StarMap3D.vue`).

Numbers are modelled exactly: JavaScript floats become real numbers where
the source takes square roots or trigonometric functions, and rationals
where the source only does field arithmetic and comparisons.  A
JavaScript value that may be `undefined` is modelled as an `Option`;
comparisons against `undefined` are false, as in JavaScript.
-/

open Classical

/-- Classification of a planet relative to its star's habitable zone.
Mirrors the string union `HabitableZone = 'habitable' | 'too-hot' | 'too-cold'`. -/
inductive HabitableZone where
  | habitable
  | tooHot
  | tooCold
deriving DecidableEq, Repr

/-- Result record of `calculateHabitableZone`: inner/outer boundaries in AU
and luminosity in solar units. -/
structure HabitableZoneBoundaries where
  innerBoundary : ℝ
  outerBoundary : ℝ
  luminosity : ℝ

/-- One catalog row as used by the habitability and rendering code.
Fields that the NASA archive may omit (and that JavaScript reads as
`undefined`) are `Option`s; `x`, `y`, `z` are the enriched Cartesian
coordinates. -/
structure Exoplanet where
  pl_name : String
  hostname : String
  pl_rade : Option ℚ
  pl_orbsmax : Option ℚ
  st_rad : Option ℚ
  st_teff : Option ℚ
  sy_dist : Option ℚ
  x : Option ℚ
  y : Option ℚ
  z : Option ℚ
deriving DecidableEq, Repr

/-- `calculateHabitableZone` from `src/composables/useExoplanets.ts`
(lines 234–266): luminosity `R² · (T/5778)⁴` by the Stefan–Boltzmann law,
inner boundary `√(L/1.1)` (runaway greenhouse), outer boundary
`√(L/0.53)` (maximum greenhouse). -/
noncomputable def calculateHabitableZone (stellarRadius stellarTemp : ℝ) :
    HabitableZoneBoundaries :=
  let luminosity := stellarRadius ^ 2 * (stellarTemp / 5778) ^ 4
  { innerBoundary := Real.sqrt (luminosity / 1.1)
    outerBoundary := Real.sqrt (luminosity / 0.53)
    luminosity := luminosity }

/-- JavaScript `d < x` where `d` may be `undefined`: comparing `undefined`
with a number is always false. -/
def jsLt (d : Option ℚ) (x : ℝ) : Prop :=
  match d with
  | none => False
  | some v => (v : ℝ) < x

/-- JavaScript `d > x` where `d` may be `undefined`. -/
def jsGt (d : Option ℚ) (x : ℝ) : Prop :=
  match d with
  | none => False
  | some v => x < (v : ℝ)

/-- The classification step at the end of `isInHabitableZone`
(`useExoplanets.ts` lines 324–331): `distance < inner → 'too-hot'`,
`distance > outer → 'too-cold'`, else `'habitable'`, where `distance`
is `planet.pl_orbsmax` and may be `undefined`. -/
noncomputable def classifyDistance (distance : Option ℚ) (inner outer : ℝ) :
    HabitableZone :=
  if jsLt distance inner then .tooHot
  else if jsGt distance outer then .tooCold
  else .habitable

/-- `isInHabitableZone` from `src/composables/useExoplanets.ts`
(lines 300–331).  If either optional boundary argument is missing, both
are recomputed from the planet's stellar data; missing stellar data gives
the conservative `'too-cold'`.  The final comparison uses the planet's
`pl_orbsmax`, which may be `undefined`. -/
noncomputable def isInHabitableZone (planet : Exoplanet)
    (innerBoundary outerBoundary : Option ℝ) : HabitableZone :=
  match innerBoundary, outerBoundary with
  | some inner, some outer => classifyDistance planet.pl_orbsmax inner outer
  | _, _ =>
    match planet.st_rad, planet.st_teff with
    | some r, some t =>
      let boundaries := calculateHabitableZone (r : ℝ) (t : ℝ)
      classifyDistance planet.pl_orbsmax boundaries.innerBoundary
        boundaries.outerBoundary
    | _, _ => .tooCold

/-- The spec's §4.2 `classify(orbitalDistanceAU, innerAU, outerAU)`
operation, exactly the comparison chain of `useExoplanets.ts` lines
328–330 for a present orbital distance, stated over any linear order so
it covers both the exact rational model and the real idealization. -/
def classify {α : Type} [LinearOrder α] (distance inner outer : α) :
    HabitableZone :=
  if distance < inner then .tooHot
  else if outer < distance then .tooCold
  else .habitable

/-- The coordinate enrichment of `fetchExoplanets`
(`useExoplanets.ts` lines 156–166): degrees to radians, then
`x = d·cos(dec)·cos(ra)`, `y = d·cos(dec)·sin(ra)`, `z = d·sin(dec)`. -/
noncomputable def transform (bearingDeg elevationDeg range : ℝ) : ℝ × ℝ × ℝ :=
  let raRad := bearingDeg * Real.pi / 180
  let decRad := elevationDeg * Real.pi / 180
  (range * Real.cos decRad * Real.cos raRad,
   range * Real.cos decRad * Real.sin raRad,
   range * Real.sin decRad)

/-- The zoom-in button of the 2D-projector backend (`StarMap3D` canvas
variant, template line 116): `zoom = Math.min(zoom + 0.2, 3)`. -/
def zoomIn (zoom : ℚ) : ℚ := min (zoom + 2/10) 3

/-- The zoom-out button of the 2D-projector backend (template line 128):
`zoom = Math.max(zoom - 0.2, 0.3)`. -/
def zoomOut (zoom : ℚ) : ℚ := max (zoom - 2/10) (3/10)

/-- A zoom gesture: one press of either zoom button. -/
inductive ZoomOp where
  | zIn
  | zOut
deriving DecidableEq, Repr

/-- Apply a finite sequence of zoom-button presses to a zoom value. -/
def applyZoomOps (ops : List ZoomOp) (zoom : ℚ) : ℚ :=
  ops.foldl (fun z op => match op with | .zIn => zoomIn z | .zOut => zoomOut z) zoom

/-- Camera state of the 2D-projector backend: pitch/yaw rotation in
radians, drag flag, auto-rotate flag, and the reference mouse position
(`rotation`, `isDragging`, `autoRotate`, `lastMouse` refs). -/
structure Camera2D where
  rotX : ℚ
  rotY : ℚ
  isDragging : Bool
  autoRotate : Bool
  lastX : ℚ
  lastY : ℚ
deriving DecidableEq, Repr

/-- Initial camera state of the 2D-projector backend:
`rotation = {x:0, y:0}`, `isDragging = false`, `autoRotate = true`,
`lastMouse = {x:0, y:0}`. -/
def initCamera2D : Camera2D :=
  { rotX := 0, rotY := 0, isDragging := false, autoRotate := true,
    lastX := 0, lastY := 0 }

/-- A pointer event on the 2D-projector canvas, with client coordinates. -/
inductive PointerEvent where
  | mouseDown (x y : ℚ)
  | mouseMove (x y : ℚ)
  | mouseUp
deriving DecidableEq, Repr

/-- The mouse handlers of the 2D-projector backend (`handleMouseDown`,
`handleMouseMove`, `handleMouseUp`).  `handleMouseMove` (source lines
856–869) adds `dy·0.01` to pitch and `dx·0.01` to yaw while dragging,
with no clamp on either axis, then updates the reference position. -/
def handleEvent (s : Camera2D) : PointerEvent → Camera2D
  | .mouseDown x y =>
    { s with isDragging := true, autoRotate := false, lastX := x, lastY := y }
  | .mouseMove x y =>
    if s.isDragging then
      { s with
        rotX := s.rotX + (y - s.lastY) * (1/100)
        rotY := s.rotY + (x - s.lastX) * (1/100)
        lastX := x, lastY := y }
    else s
  | .mouseUp => { s with isDragging := false }

/-- Run a finite sequence of pointer events through the 2D backend's
mouse handlers. -/
def applyEvents (events : List PointerEvent) (s : Camera2D) : Camera2D :=
  events.foldl handleEvent s

/-- A scene entity built by the scene-graph renderer: its `name` tag and
the position passed to `mesh.position.set`. -/
structure SceneEntity where
  name : String
  pos : ℚ × ℚ × ℚ
deriving DecidableEq, Repr

/-- Entity construction for one catalog object in field (star) view,
`renderStarView` of `StarMap3D.vue` (lines 549–573): the falsiness guard
`if (!planet.x || !planet.y || !planet.z) return` skips a coordinate
that is absent or equal to zero, then objects with
`√(x²+y²+z²) < 30` parsecs are skipped, and the survivors get a mesh at
`(x, z, -y)` named `planet_<name>`. -/
noncomputable def starViewEntity (planet : Exoplanet) : Option SceneEntity :=
  match planet.x, planet.y, planet.z with
  | some x, some y, some z =>
    if x = 0 ∨ y = 0 ∨ z = 0 then none
    else if Real.sqrt ((x : ℝ) ^ 2 + (y : ℝ) ^ 2 + (z : ℝ) ^ 2) < 30 then none
    else some { name := "planet_" ++ planet.pl_name, pos := (x, z, -y) }
  | _, _, _ => none

/-- Field view over a catalog: the list of entities added to the scene,
in catalog order. -/
noncomputable def renderStarView (planets : List Exoplanet) : List SceneEntity :=
  planets.filterMap starViewEntity

/-- Display radius of a planet in system view, `renderSystemView` of
`StarMap3D.vue` (lines 616–621): planets whose `pl_orbsmax` is missing
or non-positive are skipped, the rest are placed on a circular orbit of
radius `Math.max(25, Math.sqrt(pl_orbsmax) * 40)`. -/
noncomputable def systemViewDisplayRadius (pl_orbsmax : Option ℚ) : Option ℝ :=
  match pl_orbsmax with
  | none => none
  | some a => if a ≤ 0 then none else some (max 25 (Real.sqrt (a : ℝ) * 40))

/-- Display radius of a habitable-zone boundary in system view
(`StarMap3D.vue` lines 669–673): `Math.sqrt(boundary) * 40`, with no
minimum applied. -/
noncomputable def hzDisplayRadius (boundaryAU : ℝ) : ℝ :=
  Real.sqrt boundaryAU * 40

/-- JavaScript `Math.min(...values)`: the fold of binary `min` with
identity `+∞` (so `Math.min()` of an empty spread is `Infinity`). -/
def jsMathMin (values : List ℚ) : WithTop ℚ :=
  values.foldr (fun v m => min (v : WithTop ℚ) m) ⊤

/-- The `nearestDistance` statistic (`useExoplanets.ts` lines 406–413):
for a non-empty catalog, `Math.min` over the `sy_dist` values that are
numbers and not `NaN`; for an empty catalog, `0`. -/
def statsNearestDistance (planets : List Exoplanet) : WithTop ℚ :=
  if 0 < planets.length then
    jsMathMin (planets.filterMap (fun p => p.sy_dist))
  else 0

/-- A catalog row with every optional field absent; concrete inputs below
are built from it by structure update. -/
def basePlanet : Exoplanet :=
  { pl_name := "p", hostname := "h", pl_rade := none, pl_orbsmax := none,
    st_rad := none, st_teff := none, sy_dist := none,
    x := none, y := none, z := none }

/-- The habitable zone of the Sun's reference inputs, with the luminosity
term evaluated: `L = 1² · (5778/5778)⁴ = 1`. -/
theorem sun_hz_eq : calculateHabitableZone 1 5778 =
    ⟨Real.sqrt (1 / 1.1), Real.sqrt (1 / 0.53), 1⟩ := by
  simp only [calculateHabitableZone]
  norm_num

/-- Claim C2, counterexample: for the Sun's reference inputs the outer
boundary returned by `calculateHabitableZone` is below 1.4 AU, so it does
not lie in the claimed range 1.4–1.7 AU. -/
theorem c2_outer_below_range : (calculateHabitableZone 1 5778).outerBoundary < 1.4 := by
  rw [sun_hz_eq]
  rw [Real.sqrt_lt' (by norm_num : (0:ℝ) < 1.4)]
  norm_num

/-- Claim C2, amended: for the Sun's reference inputs
(`stellarRadius = 1.0`, `stellarTemp = 5778`), `calculateHabitableZone`
returns luminosity exactly 1, an inner boundary in (0.95, 0.96), an
outer boundary in (1.37, 1.38) — `√(1/0.53) ≈ 1.374`, not 1.4–1.7 — and
inner < 1.0 < outer. -/
theorem c2_sun_reference_boundaries :
    (calculateHabitableZone 1 5778).luminosity = 1 ∧
    0.95 < (calculateHabitableZone 1 5778).innerBoundary ∧
    (calculateHabitableZone 1 5778).innerBoundary < 0.96 ∧
    1.37 < (calculateHabitableZone 1 5778).outerBoundary ∧
    (calculateHabitableZone 1 5778).outerBoundary < 1.38 ∧
    (calculateHabitableZone 1 5778).innerBoundary < 1 ∧
    1 < (calculateHabitableZone 1 5778).outerBoundary := by
  rw [sun_hz_eq]
  refine ⟨rfl, ?_, ?_, ?_, ?_, ?_, ?_⟩
  · rw [Real.lt_sqrt (by norm_num)]; norm_num
  · rw [Real.sqrt_lt' (by norm_num)]; norm_num
  · rw [Real.lt_sqrt (by norm_num)]; norm_num
  · rw [Real.sqrt_lt' (by norm_num)]; norm_num
  · rw [Real.sqrt_lt' (by norm_num)]; norm_num
  · rw [Real.lt_sqrt (by norm_num)]; norm_num

/-- Claim C3: for every (bearing, elevation, range) with range ≥ 0, the
Cartesian triple produced by the coordinate transform satisfies
`√(x² + y² + z²) = range`: the transform preserves distance from the
origin. -/
theorem c3_transform_preserves_range (bearingDeg elevationDeg range : ℝ)
    (h : 0 ≤ range) :
    Real.sqrt ((transform bearingDeg elevationDeg range).1 ^ 2 +
      (transform bearingDeg elevationDeg range).2.1 ^ 2 +
      (transform bearingDeg elevationDeg range).2.2 ^ 2) = range := by
  have h1 := Real.sin_sq_add_cos_sq (bearingDeg * Real.pi / 180)
  have h2 := Real.sin_sq_add_cos_sq (elevationDeg * Real.pi / 180)
  have hsum : (transform bearingDeg elevationDeg range).1 ^ 2 +
      (transform bearingDeg elevationDeg range).2.1 ^ 2 +
      (transform bearingDeg elevationDeg range).2.2 ^ 2 = range ^ 2 := by
    simp only [transform]
    linear_combination (range ^ 2 * Real.cos (elevationDeg * Real.pi / 180) ^ 2) * h1 +
      range ^ 2 * h2
  rw [hsum, Real.sqrt_sq h]

/-- Witness for C3 at bearing 0, elevation 0, range 5: the transformed
point is at distance 5 from the origin. -/
theorem c3_transform_preserves_range_witness :
    Real.sqrt ((transform 0 0 5).1 ^ 2 +
      (transform 0 0 5).2.1 ^ 2 + (transform 0 0 5).2.2 ^ 2) = 5 :=
  c3_transform_preserves_range 0 0 5 (by norm_num)

/-- Claim C5: starting from the 2D backend's default zoom of 1.0, after
any finite sequence of zoom-in / zoom-out button presses the zoom value
stays in [0.3, 3.0]. -/
theorem c5_zoom_always_clamped (ops : List ZoomOp) :
    3/10 ≤ applyZoomOps ops 1 ∧ applyZoomOps ops 1 ≤ 3 := by
  have key : ∀ (l : List ZoomOp) (z : ℚ), 3/10 ≤ z → z ≤ 3 →
      3/10 ≤ applyZoomOps l z ∧ applyZoomOps l z ≤ 3 := by
    intro l
    induction l with
    | nil => intro z h₁ h₂; exact ⟨h₁, h₂⟩
    | cons op rest ih =>
      intro z h₁ h₂
      have hstep : applyZoomOps (op :: rest) z =
          applyZoomOps rest (match op with | .zIn => zoomIn z | .zOut => zoomOut z) := rfl
      rw [hstep]
      cases op with
      | zIn =>
        exact ih (zoomIn z) (le_min (by linarith) (by norm_num)) (min_le_right _ _)
      | zOut =>
        exact ih (zoomOut z) (le_max_right _ _) (max_le (by linarith) (by norm_num))
  exact key ops 1 (by norm_num) (by norm_num)

/-- Claim C8: for fixed boundaries with inner ≤ outer, `classify` is
monotone in orbital distance: if a distance is classified too-cold, every
larger distance is classified too-cold as well. -/
theorem c8_classify_monotone {α : Type} [LinearOrder α] (inner outer d₁ d₂ : α)
    (hio : inner ≤ outer) (hd : d₁ ≤ d₂)
    (h₁ : classify d₁ inner outer = HabitableZone.tooCold) :
    classify d₂ inner outer = HabitableZone.tooCold := by
  unfold classify at h₁ ⊢
  by_cases hlt : d₁ < inner
  · simp [hlt] at h₁
  · by_cases hgt : outer < d₁
    · have ho₂ : outer < d₂ := lt_of_lt_of_le hgt hd
      have hn : ¬ d₂ < inner := not_lt.mpr (le_trans hio ho₂.le)
      simp [hn, ho₂]
    · simp [hlt, hgt] at h₁

/-- Witness for C8 with boundaries (1, 2) and distances 3 ≤ 4: distance 3
is too-cold, and so is distance 4. -/
theorem c8_classify_monotone_witness : classify (4 : ℚ) 1 2 = HabitableZone.tooCold :=
  c8_classify_monotone 1 2 3 4 (by norm_num) (by norm_num) (by decide)

/-- Claim C9: for every stellar input the boundaries of
`calculateHabitableZone` are `√(L/1.1)` and `√(L/0.53)` of the returned
luminosity `L`, the inner is strictly below the outer whenever `L > 0`,
and whenever one input's luminosity is `c ≥ 0` times another's, its
boundaries are `√c` times the other's. -/
theorem c9_boundaries_scale_as_sqrt_luminosity (r t : ℝ) :
    (0 < (calculateHabitableZone r t).luminosity →
      (calculateHabitableZone r t).innerBoundary <
        (calculateHabitableZone r t).outerBoundary) ∧
    (calculateHabitableZone r t).innerBoundary =
      Real.sqrt ((calculateHabitableZone r t).luminosity / 1.1) ∧
    (calculateHabitableZone r t).outerBoundary =
      Real.sqrt ((calculateHabitableZone r t).luminosity / 0.53) ∧
    ∀ r' t' c : ℝ, 0 ≤ c →
      (calculateHabitableZone r' t').luminosity =
        c * (calculateHabitableZone r t).luminosity →
      (calculateHabitableZone r' t').innerBoundary =
        Real.sqrt c * (calculateHabitableZone r t).innerBoundary ∧
      (calculateHabitableZone r' t').outerBoundary =
        Real.sqrt c * (calculateHabitableZone r t).outerBoundary := by
  refine ⟨?_, rfl, rfl, ?_⟩
  · intro hL
    apply Real.sqrt_lt_sqrt (by positivity)
    apply div_lt_div_of_pos_left hL (by norm_num) (by norm_num)
  · intro r' t' c hc hLc
    have hin : (calculateHabitableZone r' t').innerBoundary =
        Real.sqrt ((calculateHabitableZone r' t').luminosity / 1.1) := rfl
    have hout : (calculateHabitableZone r' t').outerBoundary =
        Real.sqrt ((calculateHabitableZone r' t').luminosity / 0.53) := rfl
    constructor
    · rw [hin, hLc, show c * (calculateHabitableZone r t).luminosity / 1.1 =
        c * ((calculateHabitableZone r t).luminosity / 1.1) by ring,
        Real.sqrt_mul hc]
      rfl
    · rw [hout, hLc, show c * (calculateHabitableZone r t).luminosity / 0.53 =
        c * ((calculateHabitableZone r t).luminosity / 0.53) by ring,
        Real.sqrt_mul hc]
      rfl

/-- Witness for C9: the Sun's reference inputs have positive luminosity
and ordered boundaries, and doubling the stellar radius (luminosity × 4)
scales the inner boundary by √4. -/
theorem c9_boundaries_scale_witness :
    (calculateHabitableZone 1 5778).innerBoundary <
      (calculateHabitableZone 1 5778).outerBoundary ∧
    (calculateHabitableZone 2 5778).innerBoundary =
      Real.sqrt 4 * (calculateHabitableZone 1 5778).innerBoundary := by
  have h := c9_boundaries_scale_as_sqrt_luminosity 1 5778
  refine ⟨h.1 ?_, (h.2.2.2 2 5778 4 (by norm_num) ?_).1⟩
  · show (0:ℝ) < 1 ^ 2 * ((5778:ℝ) / 5778) ^ 4
    norm_num
  · show (2:ℝ) ^ 2 * ((5778:ℝ) / 5778) ^ 4 = 4 * (1 ^ 2 * ((5778:ℝ) / 5778) ^ 4)
    norm_num

/-- The classification step on a present distance of zero is too-hot
whenever the inner boundary is positive. -/
theorem classifyDistance_some_zero (inner outer : ℝ) (h : 0 < inner) :
    classifyDistance (some 0) inner outer = HabitableZone.tooHot := by
  unfold classifyDistance
  rw [if_pos]
  show ((0:ℚ) : ℝ) < inner
  simpa using h

/-- The classification step on an absent distance falls through both
comparisons (`undefined < inner` and `undefined > outer` are false in
JavaScript) and returns habitable. -/
theorem classifyDistance_none (inner outer : ℝ) :
    classifyDistance none inner outer = HabitableZone.habitable := by
  unfold classifyDistance
  rw [if_neg (by simp [jsLt]), if_neg (by simp [jsGt])]

/-- A planet around a Sun-like star whose orbital semi-major axis is
absent from the catalog. -/
def sunPlanetNoOrbit : Exoplanet :=
  { basePlanet with st_rad := some 1, st_teff := some 5778 }

/-- A planet around a Sun-like star whose recorded orbital semi-major
axis is the invalid value 0. -/
def sunPlanetZeroOrbit : Exoplanet :=
  { sunPlanetNoOrbit with pl_orbsmax := some 0 }

/-- Claim C1, code evaluation: with Sun-like stellar data and no supplied
boundaries, a planet whose `pl_orbsmax` is absent is classified
habitable (not too-cold), a planet with `pl_orbsmax = 0` is classified
too-hot (not too-cold); only missing stellar data yields too-cold. -/
theorem c1_missing_orbit_not_too_cold :
    isInHabitableZone sunPlanetNoOrbit none none = HabitableZone.habitable ∧
    isInHabitableZone sunPlanetZeroOrbit none none = HabitableZone.tooHot ∧
    isInHabitableZone basePlanet none none = HabitableZone.tooCold := by
  refine ⟨?_, ?_, ?_⟩
  · show classifyDistance none _ _ = HabitableZone.habitable
    exact classifyDistance_none _ _
  · show classifyDistance (some 0)
      (calculateHabitableZone ((1:ℚ):ℝ) ((5778:ℚ):ℝ)).innerBoundary
      (calculateHabitableZone ((1:ℚ):ℝ) ((5778:ℚ):ℝ)).outerBoundary = HabitableZone.tooHot
    apply classifyDistance_some_zero
    show 0 < Real.sqrt ((((1:ℚ):ℝ) ^ 2 * (((5778:ℚ):ℝ) / 5778) ^ 4) / 1.1)
    apply Real.sqrt_pos.mpr
    push_cast
    norm_num
  · rfl

/-- Claim C4, code evaluation: from the initial 2D-backend camera state,
pressing the mouse at (0,0) and dragging to (0,200) leaves the pitch at
2 radians, which exceeds the claimed π/2 bound — the active
`handleMouseMove` has no pitch clamp. -/
theorem c4_pitch_exceeds_half_pi :
    ((applyEvents [PointerEvent.mouseDown 0 0, PointerEvent.mouseMove 0 200]
      initCamera2D).rotX : ℝ) = 2 ∧ Real.pi / 2 < 2 := by
  constructor
  · norm_num [applyEvents, handleEvent, initCamera2D]
  · have h := Real.pi_lt_d2
    linarith

/-- Claim C6, counterexample: a planet whose coordinates are all present
and numeric, at distance 50 ≥ 30 from the origin, gets no field-view
entity because its `x` coordinate is `0` and the falsiness guard
`!planet.x` also rejects present zeroes. -/
theorem c6_zero_coordinate_skipped :
    starViewEntity { basePlanet with x := some 0, y := some 30, z := some 40 } = none ∧
    Real.sqrt (((0:ℚ):ℝ) ^ 2 + ((30:ℚ):ℝ) ^ 2 + ((40:ℚ):ℝ) ^ 2) = 50 := by
  constructor
  · simp [starViewEntity, basePlanet]
  · rw [show (((0:ℚ):ℝ) ^ 2 + ((30:ℚ):ℝ) ^ 2 + ((40:ℚ):ℝ) ^ 2) = (50:ℝ) ^ 2 by
      push_cast; norm_num]
    exact Real.sqrt_sq (by norm_num)

/-- Claim C6, amended: in field view an object gets a scene entity
exactly when all three Cartesian coordinates are present, numeric and
nonzero (the code's falsiness guard also drops present zero
coordinates) and its distance from the origin is at least 30 parsecs. -/
theorem c6_star_view_entity_guard (p : Exoplanet) :
    (starViewEntity p).isSome ↔
      ∃ qx qy qz : ℚ, p.x = some qx ∧ p.y = some qy ∧ p.z = some qz ∧
        qx ≠ 0 ∧ qy ≠ 0 ∧ qz ≠ 0 ∧
        30 ≤ Real.sqrt ((qx : ℝ) ^ 2 + (qy : ℝ) ^ 2 + (qz : ℝ) ^ 2) := by
  unfold starViewEntity
  rcases hx : p.x with _ | x
  · simp [hx]
  rcases hy : p.y with _ | y
  · simp [hx, hy]
  rcases hz : p.z with _ | z
  · simp [hx, hy, hz]
  simp only [hx, hy, hz]
  split_ifs with h1 h2
  · simp only [Option.isSome_none, Bool.false_eq_true, false_iff, not_exists]
    intro qx qy qz
    rintro ⟨hqx, hqy, hqz, hnx, hny, hnz, -⟩
    obtain rfl := Option.some_inj.mp hqx
    obtain rfl := Option.some_inj.mp hqy
    obtain rfl := Option.some_inj.mp hqz
    rcases h1 with h | h | h
    · exact hnx h
    · exact hny h
    · exact hnz h
  · simp only [Option.isSome_none, Bool.false_eq_true, false_iff, not_exists]
    intro qx qy qz
    rintro ⟨hqx, hqy, hqz, -, -, -, hge⟩
    obtain rfl := Option.some_inj.mp hqx
    obtain rfl := Option.some_inj.mp hqy
    obtain rfl := Option.some_inj.mp hqz
    exact absurd hge (not_le.mpr h2)
  · push_neg at h1
    refine iff_of_true rfl ?_
    exact ⟨x, y, z, rfl, rfl, rfl, h1.1, h1.2.1, h1.2.2, not_lt.mp h2⟩

/-- Claim C7, counterexample: a displayed planet with positive semi-major
axis a = 0.04 AU is placed at display radius 25 (the `Math.max(25, ·)`
floor), while the square-root mapping used for the habitable-zone ring
gives `√0.04 × 40 = 8` at the same true distance — the two mappings
disagree. -/
theorem c7_floor_breaks_consistency :
    systemViewDisplayRadius (some (1/25)) = some 25 ∧
    hzDisplayRadius (((1/25 : ℚ)) : ℝ) = 8 ∧
    (25 : ℝ) ≠ 8 := by
  have hs : Real.sqrt (((1/25 : ℚ) : ℝ)) = 1/5 := by
    rw [show (((1/25 : ℚ)) : ℝ) = (1/5 : ℝ) ^ 2 by push_cast; norm_num]
    exact Real.sqrt_sq (by norm_num)
  refine ⟨?_, ?_, by norm_num⟩
  · simp only [systemViewDisplayRadius]
    rw [if_neg (by norm_num), hs]
    rw [show (1/5 : ℝ) * 40 = 8 by norm_num]
    rw [max_eq_left (by norm_num : (8:ℝ) ≤ 25)]
  · unfold hzDisplayRadius
    rw [hs]
    norm_num

/-- Claim C7, amended: a displayed planet with positive semi-major axis a
is placed at display radius `max(25, √a × 40)` — the square-root mapping
of the habitable-zone ring with a floor of 25 applied on top; the
square-root mapping is monotone, and planet placement agrees with the
zone mapping exactly where the floor is inactive (`√a × 40 ≥ 25`). -/
theorem c7_display_radius_floor :
    (∀ a : ℚ, 0 < a → systemViewDisplayRadius (some a) =
        some (max 25 (hzDisplayRadius (a : ℝ)))) ∧
    (∀ b₁ b₂ : ℝ, b₁ ≤ b₂ → hzDisplayRadius b₁ ≤ hzDisplayRadius b₂) ∧
    (∀ a : ℚ, 0 < a → 25 ≤ hzDisplayRadius (a : ℝ) →
        systemViewDisplayRadius (some a) = some (hzDisplayRadius (a : ℝ))) := by
  have hmain : ∀ a : ℚ, 0 < a → systemViewDisplayRadius (some a) =
      some (max 25 (hzDisplayRadius (a : ℝ))) := by
    intro a ha
    simp only [systemViewDisplayRadius, hzDisplayRadius]
    rw [if_neg (not_le.mpr ha)]
  refine ⟨hmain, ?_, ?_⟩
  · intro b₁ b₂ h
    unfold hzDisplayRadius
    exact mul_le_mul_of_nonneg_right (Real.sqrt_le_sqrt h) (by norm_num)
  · intro a ha h25
    rw [hmain a ha, max_eq_right h25]

/-- Witness for C7 (amended) at a = 1 AU: `√1 × 40 = 40 ≥ 25`, so the
planet's display radius equals the zone mapping's value. -/
theorem c7_display_radius_floor_witness :
    systemViewDisplayRadius (some 1) = some (hzDisplayRadius ((1:ℚ) : ℝ)) := by
  apply c7_display_radius_floor.2.2 1 (by norm_num)
  unfold hzDisplayRadius
  rw [show ((1:ℚ) : ℝ) = 1 by norm_num, Real.sqrt_one]
  norm_num

/-- Claim C10: for a non-empty catalog in which no row has a numeric
`sy_dist`, the nearest-distance statistic is `Math.min` of an empty
spread, i.e. positive infinity — not the 0 reserved for an empty
catalog. -/
theorem c10_nearest_distance_infinity (planets : List Exoplanet)
    (hne : planets ≠ []) (hnone : ∀ p ∈ planets, p.sy_dist = none) :
    statsNearestDistance planets = ⊤ ∧ statsNearestDistance planets ≠ 0 := by
  have hlen : 0 < planets.length := List.length_pos.mpr hne
  have hfil : planets.filterMap (fun p => p.sy_dist) = [] :=
    List.filterMap_eq_nil_iff.mpr hnone
  unfold statsNearestDistance
  rw [if_pos hlen, hfil]
  refine ⟨rfl, ?_⟩
  show jsMathMin [] ≠ 0
  simp [jsMathMin]

/-- Witness for C10 on the one-row catalog whose `sy_dist` is absent:
the statistic is `+∞`. -/
theorem c10_nearest_distance_infinity_witness :
    statsNearestDistance [basePlanet] = ⊤ :=
  (c10_nearest_distance_infinity [basePlanet] (by simp)
    (by intro p hp; rw [List.mem_singleton.mp hp]; rfl)).1
